import Mathlib

/-!
Topic name service: the request handlers of `src/main/main.go`.

A shallow embedding of the HTTP handlers of the topic name service and of the
route table of `main`, together with the properties of the handlers that the
specification states.

The handlers are translated from `main.go`.  The packages `tns_model` (the
record type `TNSdata`) and `db/mongo` (the registry `TNSserver` and its
methods) are not part of the source tree: the record type is modelled from the
specification, and the registry methods are parameters of the embedding.  The
JSON decoder and the `bson` identifier generator are library code and are
parameters as well.
-/

namespace TNS

/-! ## Data model -/

/-- The identifier type `bson.ObjectId` (a string type in the `bson` library). -/
abbrev ObjectId := String

/-- Modelled from the spec: the record type `TNSdata` of package `tns_model`, which
is missing from the source tree.  Section 3 gives it an `ID`, a `Topic` and further
descriptive fields that the core does not interpret; they are kept as one value of
an arbitrary type `α`. -/
structure TNSdata (α : Type) where
  ID : ObjectId
  Topic : String
  rest : α
deriving DecidableEq, Repr

/-- Modelled from the spec: the failures a registry method reports (section 7).  The
handlers only test an error against `nil` and read its message. -/
inductive RegistryError where
  | NotFoundError (msg : String)
  | StorageError (msg : String)
  | InvalidIDError (msg : String)
  | DuplicateTopicError (msg : String)
deriving DecidableEq, Repr

/-- The method `Error()` of a Go error: its message. -/
def RegistryError.Error : RegistryError → String
  | .NotFoundError msg => msg
  | .StorageError msg => msg
  | .InvalidIDError msg => msg
  | .DuplicateTopicError msg => msg

/-- The methods of the global `tns` (type `TNSserver`, package `db/mongo`) that the
handlers call.  Each one runs against the store state `σ` and hands back the state
it leaves; what a method does is not fixed here. -/
structure TNSserver (σ α : Type) where
  FindAll : σ → Except RegistryError (List (TNSdata α)) × σ
  DiscoverTopic : String → σ → Except RegistryError (TNSdata α) × σ
  FindById : String → σ → Except RegistryError (TNSdata α) × σ
  CheckDuplicate : TNSdata α → σ → Bool × σ
  Insert : TNSdata α → σ → Option RegistryError × σ
  Update : TNSdata α → σ → Option RegistryError × σ
  Delete : TNSdata α → σ → Option RegistryError × σ

/-- What a handler runs against: the registry, the JSON decoder applied to a
request body (`json.NewDecoder(r.Body).Decode(&tnsdata)`) and the generator behind
`bson.NewObjectId()`, which yields the identifier for a given value of the process
counter. -/
structure Env (σ α : Type) where
  tns : TNSserver σ α
  Decode : String → Except String (TNSdata α)
  NewObjectId : Nat → ObjectId

/-- A call of a registry method, as recorded in the trace of a run. -/
inductive Call (α : Type) where
  | FindAll
  | DiscoverTopic (name : String)
  | FindById (id : String)
  | CheckDuplicate (tnsdata : TNSdata α)
  | Insert (tnsdata : TNSdata α)
  | Update (tnsdata : TNSdata α)
  | Delete (tnsdata : TNSdata α)
deriving DecidableEq, Repr

/-- The state a handler runs in: the store behind `tns`, the trace of the registry
calls issued so far, the counter of the identifier generator and the lines printed
by `println`. -/
structure World (σ α : Type) where
  db : σ
  calls : List (Call α)
  oidCounter : Nat
  console : List String

/-- An HTTP request as far as the handlers read it: the body and the route
variables `mux.Vars(r)`. -/
structure Request where
  Body : String
  Vars : List (String × String)
deriving DecidableEq, Repr

/-- The value handed to `json.Marshal`. -/
inductive Payload (α : Type) where
  | record (tnsdata : TNSdata α)
  | records (tnsdata : List (TNSdata α))
  | object (fields : List (String × String))
deriving DecidableEq, Repr

/-- The `http.ResponseWriter`: the header fields set, the status code written and
the body written. -/
structure ResponseWriter (α : Type) where
  header : List (String × String)
  code : Option Nat
  body : Option (Payload α)
deriving DecidableEq, Repr

/-- A response writer nothing was written to. -/
def ResponseWriter.fresh {α : Type} : ResponseWriter α :=
  { header := [], code := none, body := none }

/-! ## HTTP status codes of `net/http` -/

abbrev StatusOK : Nat := 200
abbrev StatusCreated : Nat := 201
abbrev StatusBadRequest : Nat := 400
abbrev StatusInternalServerError : Nat := 500

/-- A client error status (4xx). -/
def isClientError (code : Nat) : Prop := 400 ≤ code ∧ code < 500

/-- A server error status (5xx). -/
def isServerError (code : Nat) : Prop := 500 ≤ code ∧ code < 600

/-- A success status (2xx). -/
def isSuccess (code : Nat) : Prop := 200 ≤ code ∧ code < 300

instance (code : Nat) : Decidable (isClientError code) := by
  unfold isClientError; infer_instance

instance (code : Nat) : Decidable (isServerError code) := by
  unfold isServerError; infer_instance

instance (code : Nat) : Decidable (isSuccess code) := by
  unfold isSuccess; infer_instance

/-! ## Effects -/

section Effects

variable {σ α : Type}

/-- Lookup in the route variables; a missing key reads as the empty string. -/
def muxVars (r : Request) (key : String) : String :=
  match r.Vars.lookup key with
  | some v => v
  | none => ""

/-- Setting a header field. -/
def headerSet (h : List (String × String)) (key value : String) : List (String × String) :=
  (key, value) :: h.filter (fun kv => kv.1 != key)

/-- The function `respondWithJson`: set the content type, write the status code and
the marshalled payload. -/
def respondWithJson (w : ResponseWriter α) (code : Nat) (payload : Payload α) :
    ResponseWriter α :=
  { header := headerSet w.header "Content-Type" "application/json"
    code := some code
    body := some payload }

/-- The function `respondWithError`. -/
def respondWithError (w : ResponseWriter α) (code : Nat) (msg : String) : ResponseWriter α :=
  respondWithJson w code (.object [("error", msg)])

/-- The call `tns.FindAll()`. -/
def tnsFindAll (env : Env σ α) (st : World σ α) :
    Except RegistryError (List (TNSdata α)) × World σ α :=
  ((env.tns.FindAll st.db).1,
    { st with db := (env.tns.FindAll st.db).2, calls := st.calls ++ [Call.FindAll] })

/-- The call `tns.DiscoverTopic(name)`. -/
def tnsDiscoverTopic (env : Env σ α) (name : String) (st : World σ α) :
    Except RegistryError (TNSdata α) × World σ α :=
  ((env.tns.DiscoverTopic name st.db).1,
    { st with db := (env.tns.DiscoverTopic name st.db).2,
              calls := st.calls ++ [Call.DiscoverTopic name] })

/-- The call `tns.FindById(id)`. -/
def tnsFindById (env : Env σ α) (id : String) (st : World σ α) :
    Except RegistryError (TNSdata α) × World σ α :=
  ((env.tns.FindById id st.db).1,
    { st with db := (env.tns.FindById id st.db).2, calls := st.calls ++ [Call.FindById id] })

/-- The call `tns.CheckDuplicate(tnsdata)`. -/
def tnsCheckDuplicate (env : Env σ α) (tnsdata : TNSdata α) (st : World σ α) :
    Bool × World σ α :=
  ((env.tns.CheckDuplicate tnsdata st.db).1,
    { st with db := (env.tns.CheckDuplicate tnsdata st.db).2,
              calls := st.calls ++ [Call.CheckDuplicate tnsdata] })

/-- The call `tns.Insert(tnsdata)`. -/
def tnsInsert (env : Env σ α) (tnsdata : TNSdata α) (st : World σ α) :
    Option RegistryError × World σ α :=
  ((env.tns.Insert tnsdata st.db).1,
    { st with db := (env.tns.Insert tnsdata st.db).2,
              calls := st.calls ++ [Call.Insert tnsdata] })

/-- The call `tns.Update(tnsdata)`. -/
def tnsUpdate (env : Env σ α) (tnsdata : TNSdata α) (st : World σ α) :
    Option RegistryError × World σ α :=
  ((env.tns.Update tnsdata st.db).1,
    { st with db := (env.tns.Update tnsdata st.db).2,
              calls := st.calls ++ [Call.Update tnsdata] })

/-- The call `tns.Delete(tnsdata)`. -/
def tnsDelete (env : Env σ α) (tnsdata : TNSdata α) (st : World σ α) :
    Option RegistryError × World σ α :=
  ((env.tns.Delete tnsdata st.db).1,
    { st with db := (env.tns.Delete tnsdata st.db).2,
              calls := st.calls ++ [Call.Delete tnsdata] })

/-- The call `bson.NewObjectId()`: the identifier for the current counter value;
the counter advances. -/
def bsonNewObjectId (env : Env σ α) (st : World σ α) : ObjectId × World σ α :=
  (env.NewObjectId st.oidCounter, { st with oidCounter := st.oidCounter + 1 })

/-- The builtin `println`. -/
def println (line : String) (st : World σ α) : World σ α :=
  { st with console := st.console ++ [line] }

end Effects

/-! ## The handlers of `main.go` -/

section Handlers

variable {σ α : Type}

/-- The handler `AllTNSServerList` (GET list of topics). -/
def AllTNSServerList (env : Env σ α) (w : ResponseWriter α) (_r : Request) (st : World σ α) :
    ResponseWriter α × World σ α :=
  let res := tnsFindAll env st
  match res.1 with
  | .error err => (respondWithError w StatusInternalServerError err.Error, res.2)
  | .ok tnsdata => (respondWithJson w StatusOK (.records tnsdata), res.2)

/-- The handler `ResolutionTopic_PUT` (resolution of a topic through PUT). -/
def ResolutionTopic_PUT (env : Env σ α) (w : ResponseWriter α) (r : Request) (st : World σ α) :
    ResponseWriter α × World σ α :=
  match env.Decode r.Body with
  | .error _ => (respondWithError w StatusBadRequest "Invalid request payload", st)
  | .ok tnsdata0 =>
    let oid := bsonNewObjectId env st
    let tnsdata : TNSdata α := { tnsdata0 with ID := oid.1 }
    let mytopic := tnsdata.Topic
    let res := tnsDiscoverTopic env mytopic oid.2
    match res.1 with
    | .error err => (respondWithError w StatusInternalServerError err.Error, res.2)
    | .ok tnsdata_res => (respondWithJson w StatusOK (.record tnsdata_res), res.2)

/-- The handler `DiscoverByTopic` (GET by topic name). -/
def DiscoverByTopic (env : Env σ α) (w : ResponseWriter α) (r : Request) (st : World σ α) :
    ResponseWriter α × World σ α :=
  let res := tnsDiscoverTopic env (muxVars r "topic") st
  match res.1 with
  | .error _ => (respondWithError w StatusBadRequest "Invalid topic", res.2)
  | .ok tnsdata_res => (respondWithJson w StatusOK (.record tnsdata_res), res.2)

/-- The handler `FindTNSList` (GET by id; not routed). -/
def FindTNSList (env : Env σ α) (w : ResponseWriter α) (r : Request) (st : World σ α) :
    ResponseWriter α × World σ α :=
  let res := tnsFindById env (muxVars r "id") st
  match res.1 with
  | .error _ => (respondWithError w StatusBadRequest "Invalid id", res.2)
  | .ok tnsdata => (respondWithJson w StatusOK (.record tnsdata), res.2)

/-- The handler `CreateTopicList` (POST, register a topic). -/
def CreateTopicList (env : Env σ α) (w : ResponseWriter α) (r : Request) (st : World σ α) :
    ResponseWriter α × World σ α :=
  match env.Decode r.Body with
  | .error _ => (respondWithError w StatusBadRequest "Invalid request payload", st)
  | .ok tnsdata0 =>
    let chk := tnsCheckDuplicate env tnsdata0 st
    if chk.1 != false then
      (respondWithError w StatusBadRequest "Duplicated Topic", chk.2)
    else
      let oid := bsonNewObjectId env (println "Now will be Updated" chk.2)
      let tnsdata : TNSdata α := { tnsdata0 with ID := oid.1 }
      let ins := tnsInsert env tnsdata oid.2
      match ins.1 with
      | some err => (respondWithError w StatusInternalServerError err.Error, ins.2)
      | none => (respondWithJson w StatusCreated (.record tnsdata), ins.2)

/-- The handler `UpdateTopicList` (PUT update; not routed). -/
def UpdateTopicList (env : Env σ α) (w : ResponseWriter α) (r : Request) (st : World σ α) :
    ResponseWriter α × World σ α :=
  match env.Decode r.Body with
  | .error _ => (respondWithError w StatusBadRequest "Invalid request payload", st)
  | .ok tnsdata =>
    let res := tnsUpdate env tnsdata st
    match res.1 with
    | some err => (respondWithError w StatusInternalServerError err.Error, res.2)
    | none => (respondWithJson w StatusOK (.object [("result", "success")]), res.2)

/-- The handler `DeleteTNSList` (DELETE, unregister a topic). -/
def DeleteTNSList (env : Env σ α) (w : ResponseWriter α) (r : Request) (st : World σ α) :
    ResponseWriter α × World σ α :=
  match env.Decode r.Body with
  | .error _ => (respondWithError w StatusBadRequest "Invalid request payload", st)
  | .ok tnsdata =>
    let res := tnsDelete env tnsdata st
    match res.1 with
    | some err => (respondWithError w StatusInternalServerError err.Error, res.2)
    | none => (respondWithJson w StatusOK (.object [("result", "success")]), res.2)

/-- The handler `TopicHealthcheck`: its body is empty. -/
def TopicHealthcheck (_env : Env σ α) (w : ResponseWriter α) (_r : Request) (st : World σ α) :
    ResponseWriter α × World σ α :=
  (w, st)

/-- The type of a handler. -/
abbrev HandlerFunc (σ α : Type) :=
  ResponseWriter α → Request → World σ α → ResponseWriter α × World σ α

/-- A route registered by `r.HandleFunc(path, f).Methods(method)`. -/
structure Route (σ α : Type) where
  path : String
  method : String
  handler : HandlerFunc σ α

/-- The routes that `main` registers, in order. -/
def mainRoutes (env : Env σ α) : List (Route σ α) :=
  [ { path := "/api/v1/tns/topic", method := "GET", handler := AllTNSServerList env },
    { path := "/api/v1/tns/topic", method := "POST", handler := CreateTopicList env },
    { path := "/api/v1/tns/topic", method := "PUT", handler := ResolutionTopic_PUT env },
    { path := "/api/v1/tns/topic", method := "DELETE", handler := DeleteTNSList env },
    { path := "/api/v1/tns/topic/{topic}", method := "GET", handler := DiscoverByTopic env },
    { path := "/api/v1/tns/health", method := "POST", handler := TopicHealthcheck env } ]

end Handlers

/-! ## Concurrent registrations

Each request is served on its own thread of control; the threads share the store
and meet only in the registry calls.  A registration in flight is therefore at one
of three points: before its `CheckDuplicate` call, between that call and its
`Insert` call, or finished. -/

section Interleaving

variable {σ α : Type}

/-- A run of `CreateTopicList` in flight. -/
inductive Registrant (α : Type) where
  | start (w : ResponseWriter α) (r : Request)
  | checked (w : ResponseWriter α) (tnsdata0 : TNSdata α)
  | done (w : ResponseWriter α)
deriving DecidableEq, Repr

/-- One atomic step of a run of `CreateTopicList`: from the entry up to and
including the `CheckDuplicate` call, or from there through the `Insert` call to the
response. -/
def Registrant.step (env : Env σ α) : Registrant α → World σ α → Registrant α × World σ α
  | .start w r, st =>
    match env.Decode r.Body with
    | .error _ => (.done (respondWithError w StatusBadRequest "Invalid request payload"), st)
    | .ok tnsdata0 =>
      let chk := tnsCheckDuplicate env tnsdata0 st
      if chk.1 != false then
        (.done (respondWithError w StatusBadRequest "Duplicated Topic"), chk.2)
      else
        (.checked w tnsdata0, chk.2)
  | .checked w tnsdata0, st =>
    let oid := bsonNewObjectId env (println "Now will be Updated" st)
    let tnsdata : TNSdata α := { tnsdata0 with ID := oid.1 }
    let ins := tnsInsert env tnsdata oid.2
    match ins.1 with
    | some err => (.done (respondWithError w StatusInternalServerError err.Error), ins.2)
    | none => (.done (respondWithJson w StatusCreated (.record tnsdata)), ins.2)
  | .done w, st => (.done w, st)

/-- The registrant number `i` takes one step; a number beyond the list names nobody. -/
def stepAt (env : Env σ α) :
    Nat → List (Registrant α) → World σ α → List (Registrant α) × World σ α
  | _, [], st => ([], st)
  | 0, p :: ps, st => ((p.step env st).1 :: ps, (p.step env st).2)
  | i + 1, p :: ps, st => (p :: (stepAt env i ps st).1, (stepAt env i ps st).2)

/-- The registrants step in the order the schedule names them. -/
def runSchedule (env : Env σ α) :
    List Nat → List (Registrant α) → World σ α → List (Registrant α) × World σ α
  | [], ps, st => (ps, st)
  | i :: sched, ps, st => runSchedule env sched (stepAt env i ps st).1 (stepAt env i ps st).2

/-- A schedule is an interleaving of `n` registrations when it names each of them twice,
once for each of its two steps, and names nothing else. -/
def isInterleaving (n : Nat) (sched : List Nat) : Prop :=
  (∀ i ∈ sched, i < n) ∧ ∀ i ∈ List.range n, sched.count i = 2

instance (n : Nat) (sched : List Nat) : Decidable (isInterleaving n sched) := by
  unfold isInterleaving; infer_instance

/-- The schedule that runs `n` registrations one after another, the first of them
being number `k`: each takes its two steps before the next one starts. -/
def serialFrom : Nat → Nat → List Nat
  | _, 0 => []
  | k, n + 1 => k :: k :: serialFrom (k + 1) n

/-- The schedule that runs the registrations `0` to `n - 1` one after another. -/
def serialSchedule (n : Nat) : List Nat :=
  serialFrom 0 n

/-- The requests are served one after another by `CreateTopicList`, each with a
response writer of its own; the responses come in the order of the requests. -/
def serveRegistrations (env : Env σ α) :
    List Request → World σ α → List (ResponseWriter α) × World σ α
  | [], st => ([], st)
  | r :: rs, st =>
    let out := CreateTopicList env ResponseWriter.fresh r st
    let tl := serveRegistrations env rs out.2
    (out.1 :: tl.1, tl.2)

end Interleaving

/-! ## The registry as the specification describes it -/

section RegistrySpec

variable {σ α : Type}

/-- No two records of the list share a `Topic`. -/
def UniqueTopics (l : List (TNSdata α)) : Prop :=
  l.Pairwise (fun a b => a.Topic ≠ b.Topic)

/-- Modelled from the spec: the method `CheckDuplicate` of package `db/mongo`, missing
from the source tree.  Section 4.1: true iff a record with the same `Topic` exists;
a pure query without side effects.  The records a store state holds are read off by
`records`. -/
def CheckDuplicateSpec (tns : TNSserver σ α) (records : σ → List (TNSdata α)) : Prop :=
  ∀ c s, (tns.CheckDuplicate c s).2 = s ∧
    ((tns.CheckDuplicate c s).1 = true ↔ ∃ d ∈ records s, d.Topic = c.Topic)

/-- Modelled from the spec: the method `Insert` of package `db/mongo`, missing from the
source tree.  A successful insert adds exactly the given record; a failed one is
aborted without a write (section 7). -/
def InsertSpec (tns : TNSserver σ α) (records : σ → List (TNSdata α)) : Prop :=
  ∀ d s, ((tns.Insert d s).1 = none → (records (tns.Insert d s).2).Perm (d :: records s)) ∧
    ((tns.Insert d s).1 ≠ none → records (tns.Insert d s).2 = records s)

/-- The record `CreateTopicList` hands to `Insert`: the decoded payload with the
`ID` replaced by the identifier generated in the world `st`. -/
def registered (env : Env σ α) (p : TNSdata α) (st : World σ α) : TNSdata α :=
  { p with ID := env.NewObjectId st.oidCounter }

/-- A registry call that writes: `Insert`, `Update` or `Delete`. -/
def Call.isWrite : Call α → Bool
  | .Insert _ => true
  | .Update _ => true
  | .Delete _ => true
  | _ => false

/-- A topic name that is empty or consists of white space only. -/
def isBlank (topic : String) : Bool :=
  topic.data.all Char.isWhitespace

/-- Modelled from the spec: `DiscoverTopic` performs no writes, the store state before
and after is identical (sections 4.1 and 8). -/
def DiscoverTopicPure (tns : TNSserver σ α) : Prop :=
  ∀ name s, (tns.DiscoverTopic name s).2 = s

/-- Modelled from the spec: the method `FindAll` of package `db/mongo`, missing from the
source tree.  It reads the records and writes nothing. -/
def FindAllSpec (tns : TNSserver σ α) : Prop :=
  ∀ s, (tns.FindAll s).2 = s

/-- Modelled from the spec: the method `Delete` of package `db/mongo`, missing from the
source tree.  It removes a record and adds none. -/
def DeleteSpec (tns : TNSserver σ α) (records : σ → List (TNSdata α)) : Prop :=
  ∀ d s, (records (tns.Delete d s).2).Sublist (records s)

/-- The key of a record for `Update` and `Delete`: the `ID`, or the `Topic` when the
`ID` is absent. -/
def matchesKey (key d : TNSdata α) : Bool :=
  if key.ID != "" then d.ID == key.ID else d.Topic == key.Topic

/-- Modelled from the spec: the registry of package `db/mongo`, missing from the source
tree, over a store that is the list of its records in insertion order and whose
queries never fail (section 4.1). -/
def memStore : TNSserver (List (TNSdata α)) α where
  FindAll s := (.ok s, s)
  DiscoverTopic name s :=
    match s.find? (fun d => d.Topic == name) with
    | some d => (.ok d, s)
    | none => (.error (.NotFoundError "not found"), s)
  FindById id s :=
    match s.find? (fun d => d.ID == id) with
    | some d => (.ok d, s)
    | none => (.error (.NotFoundError "not found"), s)
  CheckDuplicate c s := (s.any (fun d => d.Topic == c.Topic), s)
  Insert d s := (none, s ++ [d])
  Update d s :=
    if s.any (matchesKey d) then (none, s.map (fun x => if matchesKey d x then d else x))
    else (some (.NotFoundError "not found"), s)
  Delete d s :=
    if s.any (matchesKey d) then (none, s.eraseP (matchesKey d))
    else (some (.NotFoundError "not found"), s)

/-- A registry whose `DiscoverTopic` query fails with a storage error; the other
methods are those of `memStore`. -/
def unreachableStore : TNSserver (List (TNSdata α)) α :=
  { (memStore : TNSserver (List (TNSdata α)) α) with
    DiscoverTopic := fun _ s => (.error (.StorageError "no reachable servers"), s) }

/-- A decoder for the request bodies of the examples: an object with the topic
`orders`, an object without a topic field, and anything else malformed. -/
def sampleDecode (body : String) : Except String (TNSdata Unit) :=
  if body = "\x7b\"topic\":\"orders\"\x7d" then .ok { ID := "", Topic := "orders", rest := () }
  else if body = "\x7b\x7d" then .ok { ID := "", Topic := "", rest := () }
  else .error "invalid character"

/-- An identifier generator for the examples. -/
def sampleObjectId (n : Nat) : ObjectId :=
  String.mk (List.replicate (n + 1) 'a')

/-- The environment of the examples: the in-memory registry. -/
def sampleEnv : Env (List (TNSdata Unit)) Unit :=
  { tns := memStore, Decode := sampleDecode, NewObjectId := sampleObjectId }

/-- The environment of the examples with a registry whose discovery query fails. -/
def unreachableEnv : Env (List (TNSdata Unit)) Unit :=
  { tns := unreachableStore, Decode := sampleDecode, NewObjectId := sampleObjectId }

/-- A world with the given records and nothing else recorded. -/
def worldOf (records : List (TNSdata Unit)) : World (List (TNSdata Unit)) Unit :=
  { db := records, calls := [], oidCounter := 0, console := [] }

/-- A request with the body of `POST` of the topic `orders`. -/
def ordersRequest : Request :=
  { Body := "\x7b\"topic\":\"orders\"\x7d", Vars := [] }

/-- A request whose body has no topic field. -/
def noTopicRequest : Request :=
  { Body := "\x7b\x7d", Vars := [] }

/-- A request whose body is not JSON. -/
def malformedRequest : Request :=
  { Body := "topic=orders", Vars := [] }

/-- A request for the route `/api/v1/tns/topic/orders`. -/
def ordersLookup : Request :=
  { Body := "", Vars := [("topic", "orders")] }

end RegistrySpec

/-! ## The in-memory registry meets the specification of the registry -/

section MemStore

variable {α : Type}

theorem memStore_checkDuplicateSpec :
    CheckDuplicateSpec (memStore : TNSserver (List (TNSdata α)) α) id := by
  intro c s
  refine ⟨rfl, ?_⟩
  simp [memStore, List.any_eq_true]

theorem memStore_insertSpec :
    InsertSpec (memStore : TNSserver (List (TNSdata α)) α) id := by
  intro d s
  refine ⟨fun _ => ?_, fun h => absurd rfl h⟩
  simp only [memStore, id]
  exact List.perm_append_comm

theorem memStore_discoverTopicPure :
    DiscoverTopicPure (memStore : TNSserver (List (TNSdata α)) α) := by
  intro name s
  simp only [memStore]
  cases s.find? (fun d => d.Topic == name) <;> rfl

theorem memStore_findAllSpec :
    FindAllSpec (memStore : TNSserver (List (TNSdata α)) α) := by
  intro s
  rfl

theorem memStore_deleteSpec :
    DeleteSpec (memStore : TNSserver (List (TNSdata α)) α) id := by
  intro d s
  simp only [memStore, id]
  split
  · exact List.eraseP_sublist s
  · exact List.Sublist.refl s

end MemStore

/-! ## Properties of the handlers -/

section Properties

variable {σ α : Type}

/-! ### What each handler does to the store -/

theorem AllTNSServerList_db (env : Env σ α) (w : ResponseWriter α) (r : Request)
    (st : World σ α) :
    (AllTNSServerList env w r st).2.db = (env.tns.FindAll st.db).2 := by
  simp only [AllTNSServerList, tnsFindAll]
  cases (env.tns.FindAll st.db).1 <;> rfl

theorem DiscoverByTopic_db (env : Env σ α) (w : ResponseWriter α) (r : Request)
    (st : World σ α) :
    (DiscoverByTopic env w r st).2.db = (env.tns.DiscoverTopic (muxVars r "topic") st.db).2 := by
  simp only [DiscoverByTopic, tnsDiscoverTopic]
  cases (env.tns.DiscoverTopic (muxVars r "topic") st.db).1 <;> rfl

theorem ResolutionTopic_PUT_db (env : Env σ α) (w : ResponseWriter α) (r : Request)
    (st : World σ α) (p : TNSdata α) (hdec : env.Decode r.Body = .ok p) :
    (ResolutionTopic_PUT env w r st).2.db = (env.tns.DiscoverTopic p.Topic st.db).2 := by
  simp only [ResolutionTopic_PUT, hdec, tnsDiscoverTopic, bsonNewObjectId]
  cases (env.tns.DiscoverTopic p.Topic st.db).1 <;> rfl

theorem DeleteTNSList_db (env : Env σ α) (w : ResponseWriter α) (r : Request)
    (st : World σ α) (p : TNSdata α) (hdec : env.Decode r.Body = .ok p) :
    (DeleteTNSList env w r st).2.db = (env.tns.Delete p st.db).2 := by
  simp only [DeleteTNSList, hdec, tnsDelete]
  cases (env.tns.Delete p st.db).1 <;> rfl

theorem CreateTopicList_db_duplicate (env : Env σ α) (w : ResponseWriter α) (r : Request)
    (st : World σ α) (p : TNSdata α) (hdec : env.Decode r.Body = .ok p)
    (hchk : (env.tns.CheckDuplicate p st.db).1 = true) :
    (CreateTopicList env w r st).2.db = (env.tns.CheckDuplicate p st.db).2 := by
  simp [CreateTopicList, hdec, tnsCheckDuplicate, hchk]

theorem CreateTopicList_db_insert (env : Env σ α) (w : ResponseWriter α) (r : Request)
    (st : World σ α) (p : TNSdata α) (hdec : env.Decode r.Body = .ok p)
    (hchk : (env.tns.CheckDuplicate p st.db).1 = false) :
    (CreateTopicList env w r st).2.db
      = (env.tns.Insert (registered env p st) (env.tns.CheckDuplicate p st.db).2).2 := by
  simp only [CreateTopicList, hdec, tnsCheckDuplicate, hchk, tnsInsert, bsonNewObjectId,
    println, registered]
  cases (env.tns.Insert { p with ID := env.NewObjectId st.oidCounter }
    (env.tns.CheckDuplicate p st.db).2).1 <;> simp

theorem decode_error_world (env : Env σ α) (w : ResponseWriter α) (r : Request)
    (st : World σ α) (e : String) (hdec : env.Decode r.Body = .error e) :
    (CreateTopicList env w r st).2 = st ∧ (ResolutionTopic_PUT env w r st).2 = st ∧
    (DeleteTNSList env w r st).2 = st := by
  simp [CreateTopicList, ResolutionTopic_PUT, DeleteTNSList, hdec]

theorem UniqueTopics_perm {l l2 : List (TNSdata α)} (h : l2.Perm l) (hl : UniqueTopics l) :
    UniqueTopics l2 :=
  (h.pairwise_iff (fun hab => Ne.symm hab)).mpr hl

/-- A registration keeps the topics of a store unique. -/
theorem CreateTopicList_unique (env : Env σ α) (records : σ → List (TNSdata α))
    (hchk : CheckDuplicateSpec env.tns records) (hins : InsertSpec env.tns records)
    (w : ResponseWriter α) (r : Request) (st : World σ α)
    (huniq : UniqueTopics (records st.db)) :
    UniqueTopics (records (CreateTopicList env w r st).2.db) := by
  cases hdec : env.Decode r.Body with
  | error e => rw [(decode_error_world env w r st e hdec).1]; exact huniq
  | ok p =>
    have hpure := (hchk p st.db).1
    cases hc : (env.tns.CheckDuplicate p st.db).1 with
    | true => rw [CreateTopicList_db_duplicate env w r st p hdec hc, hpure]; exact huniq
    | false =>
      rw [CreateTopicList_db_insert env w r st p hdec hc, hpure]
      have hnone : ¬ ∃ d ∈ records st.db, d.Topic = p.Topic := by
        intro h
        have := (hchk p st.db).2.mpr h
        rw [hc] at this
        cases this
      cases hi : (env.tns.Insert (registered env p st) st.db).1 with
      | some err =>
        rw [(hins (registered env p st) st.db).2 (by rw [hi]; simp)]
        exact huniq
      | none =>
        refine UniqueTopics_perm ((hins (registered env p st) st.db).1 hi) ?_
        refine List.pairwise_cons.mpr ⟨?_, huniq⟩
        intro d hd heq
        exact hnone ⟨d, hd, heq.symm⟩

/-! ### Registrations one after another -/

theorem CreateTopicList_resp_duplicate (env : Env σ α) (w : ResponseWriter α) (r : Request)
    (st : World σ α) (p : TNSdata α) (hdec : env.Decode r.Body = .ok p)
    (hchk : (env.tns.CheckDuplicate p st.db).1 = true) :
    (CreateTopicList env w r st).1 = respondWithError w 400 "Duplicated Topic" := by
  simp [CreateTopicList, hdec, tnsCheckDuplicate, hchk]

theorem CreateTopicList_resp_insert (env : Env σ α) (w : ResponseWriter α) (r : Request)
    (st : World σ α) (p : TNSdata α) (hdec : env.Decode r.Body = .ok p)
    (hchk : (env.tns.CheckDuplicate p st.db).1 = false) :
    (CreateTopicList env w r st).1
      = match (env.tns.Insert (registered env p st) (env.tns.CheckDuplicate p st.db).2).1 with
        | some err => respondWithError w 500 err.Error
        | none => respondWithJson w 201 (.record (registered env p st)) := by
  simp only [CreateTopicList, hdec, tnsCheckDuplicate, hchk, tnsInsert, bsonNewObjectId,
    println, registered]
  cases (env.tns.Insert { p with ID := env.NewObjectId st.oidCounter }
    (env.tns.CheckDuplicate p st.db).2).1 <;> simp

/-- The two steps of a registrant, taken one after the other, are the handler
`CreateTopicList`. -/
theorem Registrant.step_step (env : Env σ α) (w : ResponseWriter α) (r : Request)
    (st : World σ α) :
    ((Registrant.start w r).step env st).1.step env ((Registrant.start w r).step env st).2
      = (Registrant.done (CreateTopicList env w r st).1, (CreateTopicList env w r st).2) := by
  cases hdec : env.Decode r.Body with
  | error e => simp [Registrant.step, CreateTopicList, hdec]
  | ok p =>
    cases hchk : (env.tns.CheckDuplicate p st.db).1 with
    | true => simp [Registrant.step, CreateTopicList, hdec, tnsCheckDuplicate, hchk]
    | false =>
      have hc : (tnsCheckDuplicate env p st).1 = false := hchk
      have h1 : (Registrant.start w r).step env st
          = (Registrant.checked w p, (tnsCheckDuplicate env p st).2) := by
        simp [Registrant.step, hdec, hc]
      rw [h1]
      simp only [Registrant.step, CreateTopicList, hdec, hc]
      cases (tnsInsert env { p with ID := (bsonNewObjectId env
        (println "Now will be Updated" (tnsCheckDuplicate env p st).2)).1 }
        (bsonNewObjectId env (println "Now will be Updated" (tnsCheckDuplicate env p st).2)).2).1
        <;> simp

theorem stepAt_append (env : Env σ α) (ds : List (Registrant α)) (p : Registrant α)
    (ps : List (Registrant α)) (st : World σ α) :
    stepAt env ds.length (ds ++ p :: ps) st
      = (ds ++ (p.step env st).1 :: ps, (p.step env st).2) := by
  induction ds with
  | nil => rfl
  | cons d ds ih => simp [stepAt, ih]

/-- The serial schedule serves the requests one after another. -/
theorem runSchedule_serialFrom (env : Env σ α) (rs : List Request) :
    ∀ (ds : List (Registrant α)) (st : World σ α),
      runSchedule env (serialFrom ds.length rs.length)
          (ds ++ rs.map (Registrant.start ResponseWriter.fresh)) st
        = (ds ++ (serveRegistrations env rs st).1.map Registrant.done,
            (serveRegistrations env rs st).2) := by
  induction rs with
  | nil => intro ds st; simp [serialFrom, runSchedule, serveRegistrations]
  | cons r rs ih =>
    intro ds st
    have h := ih (ds ++ [Registrant.done (CreateTopicList env ResponseWriter.fresh r st).1])
      (CreateTopicList env ResponseWriter.fresh r st).2
    simp only [List.length_append, List.length_singleton, List.append_assoc,
      List.singleton_append] at h
    simp only [List.length_cons, serialFrom, runSchedule, List.map_cons, stepAt_append,
      Registrant.step_step, serveRegistrations]
    exact h

theorem runSchedule_serial (env : Env σ α) (rs : List Request) (st : World σ α) :
    runSchedule env (serialSchedule rs.length)
        (rs.map (Registrant.start ResponseWriter.fresh)) st
      = ((serveRegistrations env rs st).1.map Registrant.done,
          (serveRegistrations env rs st).2) := by
  have h := runSchedule_serialFrom env rs [] st
  simpa [serialSchedule] using h

theorem mem_serialFrom (n : Nat) : ∀ k i, i ∈ serialFrom k n → k ≤ i ∧ i < k + n := by
  induction n with
  | zero => intro k i h; simp [serialFrom] at h
  | succ n ih =>
    intro k i h
    simp only [serialFrom, List.mem_cons] at h
    rcases h with h | h | h
    · omega
    · omega
    · have := ih (k + 1) i h
      omega

theorem count_serialFrom (n : Nat) :
    ∀ k i, k ≤ i → i < k + n → (serialFrom k n).count i = 2 := by
  induction n with
  | zero => intro k i h1 h2; omega
  | succ n ih =>
    intro k i h1 h2
    by_cases hk : k = i
    · subst hk
      have hnot : k ∉ serialFrom (k + 1) n := fun hmem => by
        have := mem_serialFrom n (k + 1) k hmem
        omega
      simp [serialFrom, List.count_cons, List.count_eq_zero_of_not_mem hnot]
    · have := ih (k + 1) i (by omega) (by omega)
      simp [serialFrom, List.count_cons, this, hk]

theorem isInterleaving_serialSchedule (n : Nat) : isInterleaving n (serialSchedule n) := by
  refine ⟨fun i hi => ?_, fun i hi => ?_⟩
  · have := mem_serialFrom n 0 i hi
    omega
  · exact count_serialFrom n 0 i (Nat.zero_le i) (by simpa using hi)

/-- Once a record with the topic is stored, every further registration of the topic
is answered as a duplicate and the store stays as it is. -/
theorem serveRegistrations_duplicates (env : Env σ α) (records : σ → List (TNSdata α))
    (hchk : CheckDuplicateSpec env.tns records) (topic : String) (rs : List Request) :
    ∀ st : World σ α,
      (∀ q ∈ rs, ∃ p, env.Decode q.Body = .ok p ∧ p.Topic = topic) →
      (∃ d ∈ records st.db, d.Topic = topic) →
      (serveRegistrations env rs st).1
          = List.replicate rs.length
              (respondWithError ResponseWriter.fresh 400 "Duplicated Topic") ∧
        (serveRegistrations env rs st).2.db = st.db := by
  induction rs with
  | nil => intro st _ _; simp [serveRegistrations]
  | cons r rs ih =>
    intro st hdec hex
    obtain ⟨p, hp, htopic⟩ := hdec r (List.mem_cons_self _ _)
    have htrue : (env.tns.CheckDuplicate p st.db).1 = true :=
      (hchk p st.db).2.mpr (by rw [htopic]; exact hex)
    have hdb : (CreateTopicList env ResponseWriter.fresh r st).2.db = st.db := by
      rw [CreateTopicList_db_duplicate env _ r st p hp htrue, (hchk p st.db).1]
    have hrest := ih (CreateTopicList env ResponseWriter.fresh r st).2
      (fun q hq => hdec q (List.mem_cons_of_mem _ hq)) (by rw [hdb]; exact hex)
    simp only [serveRegistrations, List.length_cons, List.replicate_succ]
    rw [hrest.1, hrest.2, hdb, CreateTopicList_resp_duplicate env _ r st p hp htrue]
    exact ⟨rfl, rfl⟩

/-- C1: a register payload whose `Topic` is the `Topic` of a stored record makes
`CheckDuplicate` true, and `CreateTopicList` then answers 400 with the error body
`Duplicated Topic`, issues the `CheckDuplicate` call and no other (no `Insert`), and
leaves the store, hence its record count, as it was. -/
theorem CreateTopicList_duplicate (env : Env σ α) (records : σ → List (TNSdata α))
    (w : ResponseWriter α) (r : Request) (st : World σ α) (p : TNSdata α)
    (hspec : CheckDuplicateSpec env.tns records)
    (hdec : env.Decode r.Body = .ok p)
    (hdup : ∃ d ∈ records st.db, d.Topic = p.Topic) :
    (env.tns.CheckDuplicate p st.db).1 = true ∧
    (CreateTopicList env w r st).1 = respondWithError w 400 "Duplicated Topic" ∧
    (CreateTopicList env w r st).1.code = some 400 ∧
    (CreateTopicList env w r st).1.body = some (.object [("error", "Duplicated Topic")]) ∧
    (CreateTopicList env w r st).2.calls = st.calls ++ [Call.CheckDuplicate p] ∧
    (CreateTopicList env w r st).2.db = st.db ∧
    (records (CreateTopicList env w r st).2.db).length = (records st.db).length := by
  have htrue : (env.tns.CheckDuplicate p st.db).1 = true := (hspec p st.db).2.mpr hdup
  have hpure : (env.tns.CheckDuplicate p st.db).2 = st.db := (hspec p st.db).1
  simp [CreateTopicList, hdec, tnsCheckDuplicate, htrue, hpure, respondWithError,
    respondWithJson]

/-- Witness of C1: the topic `orders` is registered a second time. -/
theorem CreateTopicList_duplicate_witness :
    CheckDuplicateSpec sampleEnv.tns id ∧
    sampleEnv.Decode ordersRequest.Body = .ok { ID := "", Topic := "orders", rest := () } ∧
    (∃ d ∈ id (worldOf [{ ID := "a", Topic := "orders", rest := () }]).db,
      d.Topic = ({ ID := "", Topic := "orders", rest := () } : TNSdata Unit).Topic) ∧
    (CreateTopicList sampleEnv ResponseWriter.fresh ordersRequest
      (worldOf [{ ID := "a", Topic := "orders", rest := () }])).1.code = some 400 ∧
    (CreateTopicList sampleEnv ResponseWriter.fresh ordersRequest
      (worldOf [{ ID := "a", Topic := "orders", rest := () }])).2.db
      = [{ ID := "a", Topic := "orders", rest := () }] :=
  have hspec : CheckDuplicateSpec sampleEnv.tns id := memStore_checkDuplicateSpec
  have hdec : sampleEnv.Decode ordersRequest.Body
      = .ok { ID := "", Topic := "orders", rest := () } := by rfl
  have hdup : ∃ d ∈ id (worldOf [{ ID := "a", Topic := "orders", rest := () }]).db,
      d.Topic = ({ ID := "", Topic := "orders", rest := () } : TNSdata Unit).Topic :=
    ⟨{ ID := "a", Topic := "orders", rest := () }, by simp [worldOf], rfl⟩
  have h := CreateTopicList_duplicate sampleEnv id ResponseWriter.fresh ordersRequest
    (worldOf [{ ID := "a", Topic := "orders", rest := () }])
    { ID := "", Topic := "orders", rest := () } hspec hdec hdup
  ⟨hspec, hdec, hdup, h.2.2.1, h.2.2.2.2.2.1⟩

/-- C2: when `CheckDuplicate` is false for the decoded payload `p`, `CreateTopicList`
replaces the `ID` of `p` by the generated identifier whatever `ID` the client sent,
keeps every other field, calls `Insert` exactly once, with that record, after the
`CheckDuplicate` call, and answers with status 201 and that record as the body when
`Insert` succeeds, and with status 500 and the message of the error as the body when
it fails. -/
theorem CreateTopicList_register (env : Env σ α) (w : ResponseWriter α) (r : Request)
    (st : World σ α) (p : TNSdata α)
    (hdec : env.Decode r.Body = .ok p)
    (hchk : (env.tns.CheckDuplicate p st.db).1 = false) :
    (registered env p st).ID = env.NewObjectId st.oidCounter ∧
    (registered env p st).Topic = p.Topic ∧
    (registered env p st).rest = p.rest ∧
    (CreateTopicList env w r st).2.calls
      = st.calls ++ [Call.CheckDuplicate p, Call.Insert (registered env p st)] ∧
    (CreateTopicList env w r st).2.db
      = (env.tns.Insert (registered env p st) (env.tns.CheckDuplicate p st.db).2).2 ∧
    ((env.tns.Insert (registered env p st) (env.tns.CheckDuplicate p st.db).2).1 = none →
      (CreateTopicList env w r st).1
        = respondWithJson w 201 (.record (registered env p st)) ∧
      (CreateTopicList env w r st).1.code = some 201 ∧
      (CreateTopicList env w r st).1.body = some (.record (registered env p st))) ∧
    (∀ err,
      (env.tns.Insert (registered env p st) (env.tns.CheckDuplicate p st.db).2).1 = some err →
      (CreateTopicList env w r st).1 = respondWithError w 500 err.Error ∧
      (CreateTopicList env w r st).1.code = some 500 ∧
      (CreateTopicList env w r st).1.body = some (.object [("error", err.Error)])) := by
  refine ⟨rfl, rfl, rfl, ?_, ?_, ?_, ?_⟩
  · simp only [CreateTopicList, hdec, tnsCheckDuplicate, hchk, tnsInsert, bsonNewObjectId,
      println, registered]
    cases (env.tns.Insert { p with ID := env.NewObjectId st.oidCounter }
      (env.tns.CheckDuplicate p st.db).2).1 <;> simp
  · simp only [CreateTopicList, hdec, tnsCheckDuplicate, hchk, tnsInsert, bsonNewObjectId,
      println, registered]
    cases (env.tns.Insert { p with ID := env.NewObjectId st.oidCounter }
      (env.tns.CheckDuplicate p st.db).2).1 <;> simp
  · intro hins
    simp only [registered] at hins
    simp [CreateTopicList, hdec, tnsCheckDuplicate, hchk, tnsInsert, bsonNewObjectId,
      println, registered, hins, respondWithJson]
  · intro err hins
    simp only [registered] at hins
    simp [CreateTopicList, hdec, tnsCheckDuplicate, hchk, tnsInsert, bsonNewObjectId,
      println, registered, hins, respondWithError, respondWithJson]

/-- Witness of C2: the topic `orders` is registered in an empty store. -/
theorem CreateTopicList_register_witness :
    sampleEnv.Decode ordersRequest.Body = .ok { ID := "", Topic := "orders", rest := () } ∧
    (sampleEnv.tns.CheckDuplicate { ID := "", Topic := "orders", rest := () }
      (worldOf []).db).1 = false ∧
    (CreateTopicList sampleEnv ResponseWriter.fresh ordersRequest (worldOf [])).2.calls
      = [Call.CheckDuplicate { ID := "", Topic := "orders", rest := () },
         Call.Insert { ID := "a", Topic := "orders", rest := () }] ∧
    (CreateTopicList sampleEnv ResponseWriter.fresh ordersRequest (worldOf [])).1.code
      = some 201 ∧
    (CreateTopicList sampleEnv ResponseWriter.fresh ordersRequest (worldOf [])).1.body
      = some (.record { ID := "a", Topic := "orders", rest := () }) :=
  have hdec : sampleEnv.Decode ordersRequest.Body
      = .ok { ID := "", Topic := "orders", rest := () } := by rfl
  have hchk : (sampleEnv.tns.CheckDuplicate { ID := "", Topic := "orders", rest := () }
      (worldOf []).db).1 = false := by decide
  have h := CreateTopicList_register sampleEnv ResponseWriter.fresh ordersRequest
    (worldOf []) { ID := "", Topic := "orders", rest := () } hdec hchk
  ⟨hdec, hchk, h.2.2.2.1, (h.2.2.2.2.2.1 rfl).2.1, (h.2.2.2.2.2.1 rfl).2.2⟩

/-- C6: when the request body does not decode, each of `CreateTopicList`,
`ResolutionTopic_PUT`, `DeleteTNSList` and `UpdateTopicList` answers 400 with the
error body `Invalid request payload` and returns the world it was given: no registry
call is added to the trace and the store is unchanged. -/
theorem decode_failure_rejected (env : Env σ α) (w : ResponseWriter α) (r : Request)
    (st : World σ α) (e : String) (hdec : env.Decode r.Body = .error e) :
    CreateTopicList env w r st = (respondWithError w 400 "Invalid request payload", st) ∧
    ResolutionTopic_PUT env w r st = (respondWithError w 400 "Invalid request payload", st) ∧
    DeleteTNSList env w r st = (respondWithError w 400 "Invalid request payload", st) ∧
    UpdateTopicList env w r st = (respondWithError w 400 "Invalid request payload", st) ∧
    (respondWithError w 400 "Invalid request payload").code = some 400 ∧
    (respondWithError w 400 "Invalid request payload").body
      = some (.object [("error", "Invalid request payload")]) := by
  simp [CreateTopicList, ResolutionTopic_PUT, DeleteTNSList, UpdateTopicList, hdec,
    respondWithError, respondWithJson]

/-- Witness of C6: a body that is not JSON, against a store with one record. -/
theorem decode_failure_rejected_witness :
    sampleEnv.Decode malformedRequest.Body = .error "invalid character" ∧
    (DeleteTNSList sampleEnv ResponseWriter.fresh malformedRequest
      (worldOf [{ ID := "a", Topic := "orders", rest := () }])).1.code = some 400 ∧
    (DeleteTNSList sampleEnv ResponseWriter.fresh malformedRequest
      (worldOf [{ ID := "a", Topic := "orders", rest := () }])).2.calls = [] ∧
    (DeleteTNSList sampleEnv ResponseWriter.fresh malformedRequest
      (worldOf [{ ID := "a", Topic := "orders", rest := () }])).2.db
      = [{ ID := "a", Topic := "orders", rest := () }] :=
  have hdec : sampleEnv.Decode malformedRequest.Body = .error "invalid character" := by
    rfl
  have h := decode_failure_rejected sampleEnv ResponseWriter.fresh malformedRequest
    (worldOf [{ ID := "a", Topic := "orders", rest := () }]) "invalid character" hdec
  ⟨hdec, by rw [h.2.2.1]; rfl, by rw [h.2.2.1]; rfl, by rw [h.2.2.1]; rfl⟩

/-- C3: over a store in which `CheckDuplicate` is a pure query that is true exactly
when a stored record has the `Topic` of the candidate, `Insert` adds exactly the given
record, `FindAll` and `DiscoverTopic` write nothing and `Delete` adds no record, every
handler that `main` routes keeps the invariant that no two stored records share a
`Topic`, whatever the request. -/
theorem mainRoutes_preserve_UniqueTopics (env : Env σ α) (records : σ → List (TNSdata α))
    (hchk : CheckDuplicateSpec env.tns records) (hins : InsertSpec env.tns records)
    (hall : FindAllSpec env.tns) (hdisc : DiscoverTopicPure env.tns)
    (hdel : DeleteSpec env.tns records)
    (route : Route σ α) (hroute : route ∈ mainRoutes env)
    (w : ResponseWriter α) (r : Request) (st : World σ α)
    (huniq : UniqueTopics (records st.db)) :
    UniqueTopics (records (route.handler w r st).2.db) := by
  simp only [mainRoutes, List.mem_cons, List.mem_singleton, List.not_mem_nil, or_false]
    at hroute
  rcases hroute with h | h | h | h | h | h <;> subst h <;> simp only []
  · rw [AllTNSServerList_db, hall]; exact huniq
  · exact CreateTopicList_unique env records hchk hins w r st huniq
  · cases hdec : env.Decode r.Body with
    | error e => rw [(decode_error_world env w r st e hdec).2.1]; exact huniq
    | ok p => rw [ResolutionTopic_PUT_db env w r st p hdec, hdisc]; exact huniq
  · cases hdec : env.Decode r.Body with
    | error e => rw [(decode_error_world env w r st e hdec).2.2]; exact huniq
    | ok p =>
      rw [DeleteTNSList_db env w r st p hdec]
      exact List.Pairwise.sublist (hdel p st.db) huniq
  · rw [DiscoverByTopic_db, hdisc]; exact huniq
  · exact huniq

/-- Witness of C3: the topic `orders` is registered in a store that holds the topic
`cats`. -/
theorem mainRoutes_preserve_UniqueTopics_witness :
    CheckDuplicateSpec sampleEnv.tns id ∧ InsertSpec sampleEnv.tns id ∧
    FindAllSpec sampleEnv.tns ∧ DiscoverTopicPure sampleEnv.tns ∧
    DeleteSpec sampleEnv.tns id ∧
    UniqueTopics (id (worldOf [{ ID := "c", Topic := "cats", rest := () }]).db) ∧
    UniqueTopics (id (CreateTopicList sampleEnv ResponseWriter.fresh ordersRequest
      (worldOf [{ ID := "c", Topic := "cats", rest := () }])).2.db) :=
  have huniq : UniqueTopics (id (worldOf [{ ID := "c", Topic := "cats", rest := () }]).db) :=
    List.pairwise_singleton _ _
  ⟨memStore_checkDuplicateSpec, memStore_insertSpec, memStore_findAllSpec,
    memStore_discoverTopicPure, memStore_deleteSpec, huniq,
    mainRoutes_preserve_UniqueTopics sampleEnv id memStore_checkDuplicateSpec
      memStore_insertSpec memStore_findAllSpec memStore_discoverTopicPure memStore_deleteSpec
      { path := "/api/v1/tns/topic", method := "POST", handler := CreateTopicList sampleEnv }
      (List.mem_cons_of_mem _ (List.mem_cons_self _ _))
      ResponseWriter.fresh ordersRequest
      (worldOf [{ ID := "c", Topic := "cats", rest := () }]) huniq⟩

/-- C4: `DiscoverByTopic` and `ResolutionTopic_PUT` issue no `Insert`, `Update` or
`Delete`: the first issues one `DiscoverTopic` call, the second none when the body
does not decode and otherwise one `DiscoverTopic` call for the `Topic` of the payload.
As `DiscoverTopic` writes nothing, the store after the request is the store before.
The response of `ResolutionTopic_PUT` is the record `DiscoverTopic` returns (or 500
with the message of its error); response and store are the same for every identifier
generator, so the generated identifier is neither persisted nor returned. -/
theorem discovery_is_pure_read (env : Env σ α) (hpure : DiscoverTopicPure env.tns)
    (w : ResponseWriter α) (r : Request) (st : World σ α) :
    (DiscoverByTopic env w r st).2.calls
        = st.calls ++ [Call.DiscoverTopic (muxVars r "topic")] ∧
      (DiscoverByTopic env w r st).2.db = st.db ∧
      (∃ issued, (ResolutionTopic_PUT env w r st).2.calls = st.calls ++ issued ∧
        ∀ c ∈ issued, c.isWrite = false) ∧
      (ResolutionTopic_PUT env w r st).2.db = st.db ∧
      (∀ p, env.Decode r.Body = .ok p →
        (ResolutionTopic_PUT env w r st).2.calls = st.calls ++ [Call.DiscoverTopic p.Topic] ∧
        (∀ d, (env.tns.DiscoverTopic p.Topic st.db).1 = .ok d →
          (ResolutionTopic_PUT env w r st).1 = respondWithJson w 200 (.record d)) ∧
        (∀ err, (env.tns.DiscoverTopic p.Topic st.db).1 = .error err →
          (ResolutionTopic_PUT env w r st).1 = respondWithError w 500 err.Error)) ∧
      (∀ gen : Nat → ObjectId,
        (ResolutionTopic_PUT { env with NewObjectId := gen } w r st).1
            = (ResolutionTopic_PUT env w r st).1 ∧
          (ResolutionTopic_PUT { env with NewObjectId := gen } w r st).2.db
            = (ResolutionTopic_PUT env w r st).2.db) := by
  have hcalls : ∀ p, env.Decode r.Body = .ok p →
      (ResolutionTopic_PUT env w r st).2.calls = st.calls ++ [Call.DiscoverTopic p.Topic] := by
    intro p hdec
    simp only [ResolutionTopic_PUT, hdec, tnsDiscoverTopic, bsonNewObjectId]
    cases (env.tns.DiscoverTopic p.Topic st.db).1 <;> rfl
  refine ⟨?_, ?_, ?_, ?_, ?_, ?_⟩
  · simp only [DiscoverByTopic, tnsDiscoverTopic]
    cases (env.tns.DiscoverTopic (muxVars r "topic") st.db).1 <;> rfl
  · rw [DiscoverByTopic_db, hpure]
  · cases hdec : env.Decode r.Body with
    | error e =>
      exact ⟨[], by rw [(decode_error_world env w r st e hdec).2.1]; simp, by simp⟩
    | ok p =>
      refine ⟨[Call.DiscoverTopic p.Topic], hcalls p hdec, ?_⟩
      intro c hc
      rw [List.mem_singleton] at hc
      subst hc
      rfl
  · cases hdec : env.Decode r.Body with
    | error e => rw [(decode_error_world env w r st e hdec).2.1]
    | ok p => rw [ResolutionTopic_PUT_db env w r st p hdec, hpure]
  · intro p hdec
    refine ⟨hcalls p hdec, ?_, ?_⟩
    · intro d hd
      simp [ResolutionTopic_PUT, hdec, tnsDiscoverTopic, bsonNewObjectId, hd]
    · intro err hd
      simp [ResolutionTopic_PUT, hdec, tnsDiscoverTopic, bsonNewObjectId, hd]
  · intro gen
    cases hdec : env.Decode r.Body with
    | error e => simp [ResolutionTopic_PUT, hdec]
    | ok p =>
      simp only [ResolutionTopic_PUT, hdec, tnsDiscoverTopic, bsonNewObjectId]
      cases (env.tns.DiscoverTopic p.Topic st.db).1 <;> simp

/-- Witness of C4: the topic `orders` is resolved through PUT in a store that holds
it. -/
theorem discovery_is_pure_read_witness :
    DiscoverTopicPure sampleEnv.tns ∧
    (ResolutionTopic_PUT sampleEnv ResponseWriter.fresh ordersRequest
      (worldOf [{ ID := "a", Topic := "orders", rest := () }])).2.db
      = [{ ID := "a", Topic := "orders", rest := () }] ∧
    (ResolutionTopic_PUT sampleEnv ResponseWriter.fresh ordersRequest
      (worldOf [{ ID := "a", Topic := "orders", rest := () }])).1
      = respondWithJson ResponseWriter.fresh 200
          (.record { ID := "a", Topic := "orders", rest := () }) :=
  have h := discovery_is_pure_read sampleEnv memStore_discoverTopicPure
    ResponseWriter.fresh ordersRequest (worldOf [{ ID := "a", Topic := "orders", rest := () }])
  ⟨memStore_discoverTopicPure, h.2.2.2.1,
    (h.2.2.2.2.1 { ID := "", Topic := "orders", rest := () } rfl).2.1
      { ID := "a", Topic := "orders", rest := () } rfl⟩

/-- C5, as stated, fails: a body without a topic field decodes to a payload with the
empty `Topic`; against an empty store `CreateTopicList` answers 201, which is no
client error, calls `Insert`, and the store then holds a record with the empty
`Topic`. -/
theorem CreateTopicList_blank_topic_counterexample :
    sampleEnv.Decode noTopicRequest.Body = .ok { ID := "", Topic := "", rest := () } ∧
    isBlank ({ ID := "", Topic := "", rest := () } : TNSdata Unit).Topic = true ∧
    (CreateTopicList sampleEnv ResponseWriter.fresh noTopicRequest (worldOf [])).1.code
      = some 201 ∧
    ¬ isClientError 201 ∧
    Call.Insert { ID := "a", Topic := "", rest := () }
      ∈ (CreateTopicList sampleEnv ResponseWriter.fresh noTopicRequest (worldOf [])).2.calls ∧
    (CreateTopicList sampleEnv ResponseWriter.fresh noTopicRequest (worldOf [])).2.db
      = [{ ID := "a", Topic := "", rest := () }] := by
  refine ⟨rfl, rfl, rfl, by decide, ?_, rfl⟩
  decide

/-- C5, amended: `CreateTopicList` has no check of its own for an empty or blank
`Topic`.  Such a payload is rejected, with 400 and without an `Insert` call, when
`CheckDuplicate` is true for it; when `CheckDuplicate` is false, `Insert` is called
with a record whose `Topic` is that blank `Topic`, and the answer is 201 when the
insert succeeds. -/
theorem CreateTopicList_blank_topic (env : Env σ α) (w : ResponseWriter α) (r : Request)
    (st : World σ α) (p : TNSdata α)
    (hdec : env.Decode r.Body = .ok p) (hblank : isBlank p.Topic = true) :
    ((env.tns.CheckDuplicate p st.db).1 = true →
      (CreateTopicList env w r st).1 = respondWithError w 400 "Duplicated Topic" ∧
      (CreateTopicList env w r st).2.calls = st.calls ++ [Call.CheckDuplicate p]) ∧
    ((env.tns.CheckDuplicate p st.db).1 = false →
      isBlank (registered env p st).Topic = true ∧
      (CreateTopicList env w r st).2.calls
        = st.calls ++ [Call.CheckDuplicate p, Call.Insert (registered env p st)] ∧
      ((env.tns.Insert (registered env p st) (env.tns.CheckDuplicate p st.db).2).1 = none →
        (CreateTopicList env w r st).1
          = respondWithJson w 201 (.record (registered env p st)))) := by
  refine ⟨fun hchk => ?_, fun hchk => ⟨hblank, ?_, fun hins => ?_⟩⟩
  · simp [CreateTopicList, hdec, tnsCheckDuplicate, hchk]
  · simp only [CreateTopicList, hdec, tnsCheckDuplicate, hchk, tnsInsert, bsonNewObjectId,
      println, registered]
    cases (env.tns.Insert { p with ID := env.NewObjectId st.oidCounter }
      (env.tns.CheckDuplicate p st.db).2).1 <;> simp
  · simp only [registered] at hins
    simp [CreateTopicList, hdec, tnsCheckDuplicate, hchk, tnsInsert, bsonNewObjectId,
      println, registered, hins]

/-- Witness of the amended C5: a body without a topic field, against a store that
already holds a record with the empty `Topic`. -/
theorem CreateTopicList_blank_topic_witness :
    sampleEnv.Decode noTopicRequest.Body = .ok { ID := "", Topic := "", rest := () } ∧
    isBlank ({ ID := "", Topic := "", rest := () } : TNSdata Unit).Topic = true ∧
    (sampleEnv.tns.CheckDuplicate { ID := "", Topic := "", rest := () }
      (worldOf [{ ID := "a", Topic := "", rest := () }]).db).1 = true ∧
    (CreateTopicList sampleEnv ResponseWriter.fresh noTopicRequest
      (worldOf [{ ID := "a", Topic := "", rest := () }])).1
      = respondWithError ResponseWriter.fresh 400 "Duplicated Topic" :=
  ⟨rfl, rfl, rfl,
    ((CreateTopicList_blank_topic sampleEnv ResponseWriter.fresh noTopicRequest
      (worldOf [{ ID := "a", Topic := "", rest := () }])
      { ID := "", Topic := "", rest := () } rfl rfl).1 rfl).1⟩

/-- C7, as stated, fails: in an empty store the lookup of `orders` fails with a
not-found error, and both `ResolutionTopic_PUT` and `DeleteTNSList` answer 500, which
is no client error. -/
theorem notFound_counterexample :
    (sampleEnv.tns.DiscoverTopic "orders" (worldOf []).db).1
      = .error (.NotFoundError "not found") ∧
    (ResolutionTopic_PUT sampleEnv ResponseWriter.fresh ordersRequest (worldOf [])).1.code
      = some 500 ∧
    (sampleEnv.tns.Delete { ID := "", Topic := "orders", rest := () } (worldOf []).db).1
      = some (.NotFoundError "not found") ∧
    (DeleteTNSList sampleEnv ResponseWriter.fresh ordersRequest (worldOf [])).1.code
      = some 500 ∧
    ¬ isClientError 500 := by
  refine ⟨rfl, rfl, rfl, rfl, by decide⟩

/-- C7, amended: a not-found failure of the registry is answered with the client error
400 (`Invalid topic`) by `DiscoverByTopic`, as is every other failure of its
`DiscoverTopic` call; `ResolutionTopic_PUT` and `DeleteTNSList` answer every failure
of their `DiscoverTopic` or `Delete` call, a not-found failure included, with 500 and
the message of the error, which is no client error. -/
theorem notFound_status (env : Env σ α) (w : ResponseWriter α) (r : Request)
    (st : World σ α) :
    (∀ err, (env.tns.DiscoverTopic (muxVars r "topic") st.db).1 = .error err →
      (DiscoverByTopic env w r st).1 = respondWithError w 400 "Invalid topic" ∧
      (DiscoverByTopic env w r st).1.code = some 400 ∧
      (DiscoverByTopic env w r st).1.body = some (.object [("error", "Invalid topic")])) ∧
    (∀ p err, env.Decode r.Body = .ok p →
      (env.tns.DiscoverTopic p.Topic st.db).1 = .error err →
      (ResolutionTopic_PUT env w r st).1 = respondWithError w 500 err.Error ∧
      (ResolutionTopic_PUT env w r st).1.code = some 500 ∧
      (ResolutionTopic_PUT env w r st).1.body = some (.object [("error", err.Error)])) ∧
    (∀ p err, env.Decode r.Body = .ok p →
      (env.tns.Delete p st.db).1 = some err →
      (DeleteTNSList env w r st).1 = respondWithError w 500 err.Error ∧
      (DeleteTNSList env w r st).1.code = some 500 ∧
      (DeleteTNSList env w r st).1.body = some (.object [("error", err.Error)])) ∧
    (∀ msg, (RegistryError.NotFoundError msg).Error = msg) ∧
    isClientError 400 ∧ ¬ isClientError 500 := by
  refine ⟨fun err h => ?_, fun p err hdec h => ?_, fun p err hdec h => ?_, fun _ => rfl,
    by decide, by decide⟩
  · simp [DiscoverByTopic, tnsDiscoverTopic, h, respondWithError, respondWithJson]
  · simp [ResolutionTopic_PUT, hdec, tnsDiscoverTopic, bsonNewObjectId, h, respondWithError,
      respondWithJson]
  · simp [DeleteTNSList, hdec, tnsDelete, h, respondWithError, respondWithJson]

/-- Witness of the amended C7: the topic `orders` is looked up by name, and deleted,
in an empty store. -/
theorem notFound_status_witness :
    (sampleEnv.tns.DiscoverTopic (muxVars ordersLookup "topic") (worldOf []).db).1
      = .error (.NotFoundError "not found") ∧
    (DiscoverByTopic sampleEnv ResponseWriter.fresh ordersLookup (worldOf [])).1.code
      = some 400 ∧
    sampleEnv.Decode ordersRequest.Body = .ok { ID := "", Topic := "orders", rest := () } ∧
    (sampleEnv.tns.Delete { ID := "", Topic := "orders", rest := () } (worldOf []).db).1
      = some (.NotFoundError "not found") ∧
    (DeleteTNSList sampleEnv ResponseWriter.fresh ordersRequest (worldOf [])).1.body
      = some (.object [("error", "not found")]) :=
  ⟨rfl,
    ((notFound_status sampleEnv ResponseWriter.fresh ordersLookup (worldOf [])).1
      (.NotFoundError "not found") rfl).2.1,
    rfl, rfl,
    ((notFound_status sampleEnv ResponseWriter.fresh ordersRequest (worldOf [])).2.2.1
      { ID := "", Topic := "orders", rest := () } (.NotFoundError "not found") rfl rfl).2.2⟩

/-- C8, as stated, fails: when the `DiscoverTopic` query fails with a storage error,
`DiscoverByTopic` answers 400, which is no server error, with the fixed message
`Invalid topic` in place of the message of the error. -/
theorem storageFailure_counterexample :
    (unreachableEnv.tns.DiscoverTopic (muxVars ordersLookup "topic") (worldOf []).db).1
      = .error (.StorageError "no reachable servers") ∧
    (DiscoverByTopic unreachableEnv ResponseWriter.fresh ordersLookup (worldOf [])).1.code
      = some 400 ∧
    (DiscoverByTopic unreachableEnv ResponseWriter.fresh ordersLookup (worldOf [])).1.body
      = some (.object [("error", "Invalid topic")]) ∧
    ¬ isServerError 400 := by
  refine ⟨rfl, rfl, rfl, by decide⟩

/-- C8, amended: a storage failure of the registry call, like every other failure of
it, is answered with 500 and the message of the error by `AllTNSServerList`, by
`CreateTopicList` (for its `Insert` call), by `ResolutionTopic_PUT` and by
`DeleteTNSList`; `DiscoverByTopic` answers every failure of its `DiscoverTopic` call
with 400 and the fixed message `Invalid topic`.  So in none of the five handlers is a
failed registry call answered with a success status. -/
theorem storageFailure_status (env : Env σ α) (w : ResponseWriter α) (r : Request)
    (st : World σ α) :
    (∀ err, (env.tns.FindAll st.db).1 = .error err →
      (AllTNSServerList env w r st).1 = respondWithError w 500 err.Error ∧
      (AllTNSServerList env w r st).1.code = some 500 ∧
      (AllTNSServerList env w r st).1.body = some (.object [("error", err.Error)])) ∧
    (∀ p err, env.Decode r.Body = .ok p → (env.tns.CheckDuplicate p st.db).1 = false →
      (env.tns.Insert (registered env p st) (env.tns.CheckDuplicate p st.db).2).1
        = some err →
      (CreateTopicList env w r st).1 = respondWithError w 500 err.Error ∧
      (CreateTopicList env w r st).1.code = some 500 ∧
      (CreateTopicList env w r st).1.body = some (.object [("error", err.Error)])) ∧
    (∀ p err, env.Decode r.Body = .ok p →
      (env.tns.DiscoverTopic p.Topic st.db).1 = .error err →
      (ResolutionTopic_PUT env w r st).1 = respondWithError w 500 err.Error ∧
      (ResolutionTopic_PUT env w r st).1.code = some 500 ∧
      (ResolutionTopic_PUT env w r st).1.body = some (.object [("error", err.Error)])) ∧
    (∀ p err, env.Decode r.Body = .ok p →
      (env.tns.Delete p st.db).1 = some err →
      (DeleteTNSList env w r st).1 = respondWithError w 500 err.Error ∧
      (DeleteTNSList env w r st).1.code = some 500 ∧
      (DeleteTNSList env w r st).1.body = some (.object [("error", err.Error)])) ∧
    (∀ err, (env.tns.DiscoverTopic (muxVars r "topic") st.db).1 = .error err →
      (DiscoverByTopic env w r st).1 = respondWithError w 400 "Invalid topic" ∧
      (DiscoverByTopic env w r st).1.code = some 400 ∧
      (DiscoverByTopic env w r st).1.body = some (.object [("error", "Invalid topic")])) ∧
    (∀ msg, (RegistryError.StorageError msg).Error = msg) ∧
    isServerError 500 ∧ ¬ isSuccess 500 ∧ ¬ isServerError 400 ∧ ¬ isSuccess 400 := by
  refine ⟨fun err h => ?_, fun p err hdec hchk h => ?_, fun p err hdec h => ?_,
    fun p err hdec h => ?_, fun err h => ?_, fun _ => rfl, by decide, by decide, by decide,
    by decide⟩
  · simp [AllTNSServerList, tnsFindAll, h, respondWithError, respondWithJson]
  · simp only [registered] at h
    simp [CreateTopicList, hdec, tnsCheckDuplicate, hchk, tnsInsert, bsonNewObjectId,
      println, h, respondWithError, respondWithJson]
  · simp [ResolutionTopic_PUT, hdec, tnsDiscoverTopic, bsonNewObjectId, h, respondWithError,
      respondWithJson]
  · simp [DeleteTNSList, hdec, tnsDelete, h, respondWithError, respondWithJson]
  · simp [DiscoverByTopic, tnsDiscoverTopic, h, respondWithError, respondWithJson]

/-- Witness of the amended C8: the topic `orders` is resolved through PUT while the
discovery query fails. -/
theorem storageFailure_status_witness :
    unreachableEnv.Decode ordersRequest.Body
      = .ok { ID := "", Topic := "orders", rest := () } ∧
    (unreachableEnv.tns.DiscoverTopic "orders" (worldOf []).db).1
      = .error (.StorageError "no reachable servers") ∧
    (ResolutionTopic_PUT unreachableEnv ResponseWriter.fresh ordersRequest
      (worldOf [])).1.code = some 500 ∧
    (ResolutionTopic_PUT unreachableEnv ResponseWriter.fresh ordersRequest
      (worldOf [])).1.body = some (.object [("error", "no reachable servers")]) :=
  have h := (storageFailure_status unreachableEnv ResponseWriter.fresh ordersRequest
    (worldOf [])).2.2.1 { ID := "", Topic := "orders", rest := () }
    (.StorageError "no reachable servers") rfl rfl
  ⟨rfl, rfl, h.2.1, h.2.2⟩

/-- Without a uniqueness constraint in the store the handler does not keep topics
unique under concurrency: two registrations of the topic `orders` against an empty
store, interleaved so that both `CheckDuplicate` calls come before both `Insert`
calls, are both answered 201 and the store then holds two records with the topic
`orders`. -/
theorem unconstrained_registrations_race :
    isInterleaving 2 [0, 1, 0, 1] ∧
    (runSchedule sampleEnv [0, 1, 0, 1]
      [.start ResponseWriter.fresh ordersRequest, .start ResponseWriter.fresh ordersRequest]
      (worldOf [])).1
      = [.done (respondWithJson ResponseWriter.fresh 201
            (.record { ID := "a", Topic := "orders", rest := () })),
         .done (respondWithJson ResponseWriter.fresh 201
            (.record { ID := "aa", Topic := "orders", rest := () }))] ∧
    (runSchedule sampleEnv [0, 1, 0, 1]
      [.start ResponseWriter.fresh ordersRequest, .start ResponseWriter.fresh ordersRequest]
      (worldOf [])).2.db
      = [{ ID := "a", Topic := "orders", rest := () },
         { ID := "aa", Topic := "orders", rest := () }] ∧
    ((runSchedule sampleEnv [0, 1, 0, 1]
      [.start ResponseWriter.fresh ordersRequest, .start ResponseWriter.fresh ordersRequest]
      (worldOf [])).2.db.countP (fun d => d.Topic == "orders")) ≠ 1 := by
  refine ⟨by decide, rfl, rfl, by decide⟩

/-- Registrations one after another over a store whose `Insert` always succeeds: `N`
registrations of one topic that is not yet registered, run in the serial interleaving
(each handler issues its `Insert` call right after its `CheckDuplicate` call), leave
exactly one record with that topic, answer the first with 201 and the other `N - 1`
with 400 `Duplicated Topic`. -/
theorem serial_registrations (env : Env σ α) (records : σ → List (TNSdata α))
    (hchk : CheckDuplicateSpec env.tns records) (hins : InsertSpec env.tns records)
    (hok : ∀ d s, (env.tns.Insert d s).1 = none)
    (topic : String) (r : Request) (rs : List Request) (st : World σ α)
    (hdec : ∀ q ∈ r :: rs, ∃ p, env.Decode q.Body = .ok p ∧ p.Topic = topic)
    (hnew : ∀ d ∈ records st.db, d.Topic ≠ topic) :
    isInterleaving (rs.length + 1) (serialSchedule (rs.length + 1)) ∧
    (records (runSchedule env (serialSchedule (rs.length + 1))
      ((r :: rs).map (Registrant.start ResponseWriter.fresh)) st).2.db).countP
        (fun d => d.Topic == topic) = 1 ∧
    ∃ tnsdata : TNSdata α, tnsdata.Topic = topic ∧
      (runSchedule env (serialSchedule (rs.length + 1))
        ((r :: rs).map (Registrant.start ResponseWriter.fresh)) st).1
        = Registrant.done (respondWithJson ResponseWriter.fresh 201 (.record tnsdata))
          :: List.replicate rs.length
              (Registrant.done (respondWithError ResponseWriter.fresh 400 "Duplicated Topic")) := by
  refine ⟨isInterleaving_serialSchedule _, ?_⟩
  have hrun := runSchedule_serial env (r :: rs) st
  rw [List.length_cons] at hrun
  rw [hrun]
  obtain ⟨p, hp, htopic⟩ := hdec r (List.mem_cons_self _ _)
  have hfalse : (env.tns.CheckDuplicate p st.db).1 = false := by
    cases hc : (env.tns.CheckDuplicate p st.db).1 with
    | false => rfl
    | true =>
      obtain ⟨d, hd, heq⟩ := (hchk p st.db).2.mp hc
      exact absurd (heq.trans htopic) (hnew d hd)
  have hresp := CreateTopicList_resp_insert env ResponseWriter.fresh r st p hp hfalse
  have hdb := CreateTopicList_db_insert env ResponseWriter.fresh r st p hp hfalse
  rw [(hchk p st.db).1] at hresp hdb
  rw [hok] at hresp
  have hperm := (hins (registered env p st) st.db).1 (hok _ _)
  have hrest := serveRegistrations_duplicates env records hchk topic rs
    (CreateTopicList env ResponseWriter.fresh r st).2
    (fun q hq => hdec q (List.mem_cons_of_mem _ hq))
    ⟨registered env p st, by rw [hdb]; exact hperm.mem_iff.mpr (List.mem_cons_self _ _),
      htopic⟩
  simp only [serveRegistrations, List.map_cons]
  rw [hrest.1, hrest.2, hdb, hresp]
  refine ⟨?_, registered env p st, htopic, by simp⟩
  rw [hperm.countP_eq, List.countP_cons]
  have hzero : (records st.db).countP (fun d => d.Topic == topic) = 0 := by
    rw [List.countP_eq_zero]
    intro d hd
    simpa using hnew d hd
  have hreg : (registered env p st).Topic = topic := htopic
  simp [hzero, hreg]

end Properties

end TNS
